import Mathlib

/-!
Verification of the FastSpeech2 training repository (train.py,
utils/model.py, utils/logging.py) against its natural-language
specification.  The Python code is shallowly embedded: scalar losses are
rationals, dictionaries are association lists, fallible operations
(dictionary indexing, tuple unpacking, assertions, raised exceptions)
return values in `Except String`.
-/

/-! ## Loss scaling (train.py lines 305-331 and lines 97-122)

The acoustic loss function returns six scalar components; the training
loop and the validation routine then scale the binarization loss by 2.0
and fold it into the alignment and total components before logging. -/

/-- The six scalar loss components returned by `FastSpeech2Loss` and
stored into `loss_dict` by both the training loop and `evaluate`. -/
structure LossValues where
  totalLoss : ℚ
  melLoss : ℚ
  postnetMelLoss : ℚ
  durationLoss : ℚ
  pitchLoss : ℚ
  alignLoss : ℚ
deriving Repr, DecidableEq

/-- Embeds train.py lines 318-331 (training loop): given the base losses
from the loss function and the `bin_loss` from the forward pass, performs
`bin_loss = bin_loss * 2.0`, `align_loss += bin_loss`,
`total_loss = total_loss + bin_loss`, and builds the reported
`loss_dict`. -/
def trainStepLossDict (base : LossValues) (binLoss : ℚ) : LossValues :=
  let binLoss := binLoss * 2
  let alignLoss := base.alignLoss + binLoss
  let totalLoss := base.totalLoss + binLoss
  { base with totalLoss := totalLoss, alignLoss := alignLoss }

/-- Embeds train.py lines 109-122 (validation routine `evaluate`): given
the base losses, performs `bin_loss *= 2.0`, `align_loss += bin_loss`,
`total_loss += bin_loss`, and builds the reported `loss_dict`. -/
def evaluateLossDict (base : LossValues) (binLoss : ℚ) : LossValues :=
  let binLoss := binLoss * 2
  let alignLoss := base.alignLoss + binLoss
  let totalLoss := base.totalLoss + binLoss
  { base with totalLoss := totalLoss, alignLoss := alignLoss }

/-! ## Validation loss aggregation (train.py lines 124-127 and 165-168) -/

/-- Embeds the accumulation in train.py lines 124-127: for each
validation batch, `loss_mean_dict[key] += loss_dict[key].item() *
len(batch[0])`, starting from 0.0; each pair is (per-batch mean loss,
batch size `len(batch[0])`). -/
def evalAccumulate (batchLosses : List (ℚ × Nat)) : ℚ :=
  batchLosses.foldl (fun acc p => acc + p.1 * (p.2 : ℚ)) 0

/-- Embeds train.py lines 165-168: the accumulated per-key sum is
divided by `len(dataset)` at the end of `evaluate`. -/
def evalReportedMean (batchLosses : List (ℚ × Nat)) (datasetLen : Nat) : ℚ :=
  evalAccumulate batchLosses / (datasetLen : ℚ)

/-- Modelled from the spec: `FastSpeech2Loss` (modules/loss.py, not under
src/) returns, for each loss component, the mean of the per-utterance
losses over the utterances of the batch. -/
def batchMeanLoss (batch : List ℚ) : ℚ :=
  batch.sum / (batch.length : ℚ)

/-! ## Dataset-size assertion (train.py lines 199-204) -/

/-- Embeds train.py lines 200-203: `group_size = 1` when `num_gpus > 1`,
otherwise `group_size = 4`. -/
def mainGroupSize (numGpus : Nat) : Nat :=
  if 1 < numGpus then 1 else 4

/-- Embeds train.py line 204: `assert batch_size * group_size <
len(dataset)`; an assertion failure aborts the run before the loader,
model construction and training loop. -/
def mainSizeAssert (batchSize numGpus datasetLen : Nat) : Except String Unit :=
  if batchSize * mainGroupSize numGpus < datasetLen then .ok ()
  else .error "AssertionError"

/-! ## Logging utility (utils/logging.py)

A Python loss dictionary is an association list with pairwise-distinct
keys; values are `Option ℚ` (`none` embeds Python `None`).  An audio
array is a list of rational samples; the numpy division `audio /
max(abs(audio))` is total and produces non-finite values (embedded as
`Option.none` entries) when the divisor is zero, without raising. -/

abbrev PyLossDict := List (String × Option ℚ)

/-- Embeds Python dictionary indexing as used in logging.py line 33:
returns `some v` when the key is present with value `v`, `none` when the
key is absent. -/
def pyDictLookup (d : PyLossDict) (k : String) : Option (Option ℚ) :=
  (d.find? fun kv => kv.1 == k).map Prod.snd

/-- Embeds `del loss_dict[key]` (logging.py line 34) on a unique-key
dictionary: removes the entry with the given key. -/
def pyDictDel (d : PyLossDict) (k : String) : PyLossDict :=
  d.filter fun kv => kv.1 ≠ k

/-- One iteration of the loop in logging.py lines 32-34: `if
loss_dict[key] is None: del loss_dict[key]`. -/
def logDropNoneStep (d : PyLossDict) (k : String) : PyLossDict :=
  if pyDictLookup d k = some Option.none then pyDictDel d k else d

/-- Embeds logging.py lines 30-34: `keys = list(loss_dict.keys()); for
key in keys: if loss_dict[key] is None: del loss_dict[key]`.  The result
is the state of the caller's dictionary after `log` returns (the
mutation is modelled by explicit state passing). -/
def logLossDictUpdate (d : PyLossDict) : PyLossDict :=
  (d.map Prod.fst).foldl logDropNoneStep d

/-- Embeds `abs` applied to one numpy sample. -/
def npAbs (x : ℚ) : ℚ := |x|

/-- Embeds the Python builtin `max` over an iterable of samples
(logging.py line 43): raises on an empty sequence, otherwise returns the
maximum element. -/
def pyMax (l : List ℚ) : Except String ℚ :=
  match l with
  | [] => .error "max() arg is an empty sequence"
  | a :: as => .ok (as.foldl max a)

/-- Embeds numpy scalar division of a sample by the peak: total, with a
non-finite result (embedded as `Option.none`) when the divisor is zero;
numpy emits a warning in that case but raises no exception. -/
def npDivScalar (x p : ℚ) : Option ℚ :=
  if p = 0 then Option.none else some (x / p)

/-- Embeds logging.py lines 40-46: the clip passed to
`logger.add_audio` is `audio / max(abs(audio))`. -/
def logAudioClip (wav : List ℚ) : Except String (List (Option ℚ)) :=
  match pyMax (wav.map npAbs) with
  | .error e => .error e
  | .ok p => .ok (wav.map fun x => npDivScalar x p)

/-! ## Model/checkpoint factory (utils/model.py)

Sub-models are PyTorch modules embedded as records: the constructor tag
and constructor arguments identify which network was built and with
which configuration-derived parameters; `stateDict` abstracts the
learnable parameters; `training` is the train/eval mode flag;
`weightNorm` records whether the weight-norm reparameterization is
present; `requiresGradAttr` embeds the plain Python instance attribute
written by the assignment `model.requires_grad_ = False` (which shadows
the method of that name without touching the parameters), while
`paramsRequireGrad` is the actual autograd flag of the parameters
(`True` for a freshly constructed module and changed only by calling the
`requires_grad_` method, which this code never does). -/

/-- A PyTorch sub-model as constructed and mutated by `get_model`. -/
structure SubModel where
  arch : String
  ctorArgs : List ℚ
  stateDict : List (String × Int)
  training : Bool
  weightNorm : Bool
  requiresGradAttr : Option Bool
  paramsRequireGrad : Bool
deriving Repr, DecidableEq

/-- A freshly constructed module: training mode on, parameters tracked
by autograd, no shadowing attribute assigned. -/
def newModule (arch : String) (args : List ℚ) (wn : Bool) : SubModel :=
  ⟨arch, args, [], true, wn, Option.none, true⟩

/-- Embeds `model.train()`. -/
def SubModel.train (m : SubModel) : SubModel := { m with training := true }

/-- Embeds `model.eval()`. -/
def SubModel.eval (m : SubModel) : SubModel := { m with training := false }

/-- Embeds `model.load_state_dict(sd)`. -/
def SubModel.load_state_dict (m : SubModel) (sd : List (String × Int)) : SubModel :=
  { m with stateDict := sd }

/-- Embeds `generator.remove_weight_norm()`. -/
def SubModel.remove_weight_norm (m : SubModel) : SubModel :=
  { m with weightNorm := false }

/-- Embeds the attribute assignment `model.requires_grad_ = b`
(utils/model.py lines 133-136): it writes a plain instance attribute and
leaves the parameters' autograd flag unchanged. -/
def SubModel.set_requires_grad_attr (m : SubModel) (b : Bool) : SubModel :=
  { m with requiresGradAttr := some b }

/-- A value stored in a torch checkpoint dictionary: either a state
dictionary or an integer (`epoch` / `step`). -/
inductive CkptVal where
  | sd (d : List (String × Int))
  | int (n : Int)
deriving Repr, DecidableEq

/-- A loaded torch checkpoint: a Python dictionary from key to value. -/
abbrev Ckpt := List (String × CkptVal)

/-- Embeds checkpoint dictionary indexing `ckpt[key]`: raises `KeyError`
when the key is absent. -/
def ckptGet (c : Ckpt) (k : String) : Except String CkptVal :=
  match c.find? (fun kv => kv.1 == k) with
  | some kv => .ok kv.2
  | Option.none => .error ("KeyError: " ++ k)

/-- Reads a checkpoint entry that must be a state dictionary. -/
def ckptGetSd (c : Ckpt) (k : String) : Except String (List (String × Int)) :=
  match ckptGet c k with
  | .error e => .error e
  | .ok (.sd d) => .ok d
  | .ok (.int _) => .error ("TypeError: " ++ k)

/-- Reads a checkpoint entry that must be an integer. -/
def ckptGetInt (c : Ckpt) (k : String) : Except String Int :=
  match ckptGet c k with
  | .error e => .error e
  | .ok (.int n) => .ok n
  | .ok (.sd _) => .error ("TypeError: " ++ k)

/-- The six state dictionaries plus epoch and step read from a
checkpoint by utils/model.py lines 103-112. -/
structure Restored where
  vsd : List (String × Int)
  esd : List (String × Int)
  dsd : List (String × Int)
  gsd : List (String × Int)
  mpdSd : List (String × Int)
  msdSd : List (String × Int)
  epoch : Int
  step : Int
deriving Repr, DecidableEq

/-- Embeds utils/model.py lines 104-112: reads
`ckpt["variance_model"]`, `ckpt["embedder_model"]`,
`ckpt["decoder_model"]`, `ckpt["generator_model"]`, `ckpt["mpd_model"]`,
`ckpt["msd_model"]`, `ckpt["epoch"]`, `ckpt["step"]` in order, raising
`KeyError` at the first absent key. -/
def loadRestore (ckpt : Ckpt) : Except String Restored :=
  match ckptGetSd ckpt "variance_model" with
  | .error e => .error e
  | .ok vsd =>
    match ckptGetSd ckpt "embedder_model" with
    | .error e => .error e
    | .ok esd =>
      match ckptGetSd ckpt "decoder_model" with
      | .error e => .error e
      | .ok dsd =>
        match ckptGetSd ckpt "generator_model" with
        | .error e => .error e
        | .ok gsd =>
          match ckptGetSd ckpt "mpd_model" with
          | .error e => .error e
          | .ok mpdSd =>
            match ckptGetSd ckpt "msd_model" with
            | .error e => .error e
            | .ok msdSd =>
              match ckptGetInt ckpt "epoch" with
              | .error e => .error e
              | .ok epoch =>
                match ckptGetInt ckpt "step" with
                | .error e => .error e
                | .ok step => .ok ⟨vsd, esd, dsd, gsd, mpdSd, msdSd, epoch, step⟩

/-- The scheduled optimizer wrapper (modules/optimizer.py `ScheduledOptim`)
as constructed by `get_model`: it registers the parameters of the six
sub-models passed to its constructor (recorded here by their constructor
tags, in order), carries the training configuration and the initial
epoch, and its serializable state is the wrapped base optimizer's state
dictionary, settable through `load_state_dict`. -/
structure ScheduledOptim where
  modelArchs : List String
  trainConfig : Int
  initEpoch : Int
  loadedState : Option (List (String × Int))
deriving Repr, DecidableEq

/-- Embeds the construction at utils/model.py lines 115-117. -/
def ScheduledOptim.new (v e d g mpd msd : SubModel) (cfg : Int) (epoch : Int) :
    ScheduledOptim :=
  ⟨[v.arch, e.arch, d.arch, g.arch, mpd.arch, msd.arch], cfg, epoch, Option.none⟩

/-- Embeds `scheduled_optim.load_state_dict(...)` (utils/model.py line 119). -/
def ScheduledOptim.load_state_dict (o : ScheduledOptim) (sd : List (String × Int)) :
    ScheduledOptim :=
  { o with loadedState := some sd }

/-- The run configuration fields read by `get_model`: the `pitch` array
of `stats.json`, `preprocess.mel.n_mel_channels`,
`model.decoder.hidden`, `model.vocoder_type`, `model.mode`, and the
`train` section (abstracted to a token, only passed through to the
optimizer constructor). -/
structure Config where
  statsPitch : List ℚ
  nMelChannels : Nat
  decoderHidden : Nat
  vocoderType : String
  mode : String
  trainCfg : Int
deriving Repr, DecidableEq

/-- A value in the Python tuple returned by `get_model`: a sub-model,
the scheduled optimizer, an integer, or `None`. -/
inductive PyVal where
  | model (m : SubModel)
  | optim (o : ScheduledOptim)
  | int (n : Int)
  | none
deriving Repr, DecidableEq

/-- Embeds utils/model.py lines 114-137, after construction and optional
restore: the `if train:` branch builds the six-model `ScheduledOptim`,
loads its state if a checkpoint was loaded, calls `.train()` on all six
sub-models and returns the nine-element tuple of line 126; the `else`
branch calls `.eval()` on four sub-models, removes weight norm from the
generator, assigns the `requires_grad_` attribute on the four, and
returns the eight-element tuple of line 137 (three `None` placeholders;
the generator itself is not among the returned values). -/
def finishGetModel (config : Config) (train : Bool)
    (varianceModel embedderModel decoderModel generatorModel mpdModel msdModel : SubModel)
    (epoch step : Int) (loadedCkpt : Option Ckpt) : Except String (List PyVal) :=
  if train then
    let scheduledOptim := ScheduledOptim.new varianceModel embedderModel decoderModel
        generatorModel mpdModel msdModel config.trainCfg epoch
    match loadedCkpt with
    | Option.none =>
      .ok [.model varianceModel.train, .model embedderModel.train,
           .model decoderModel.train, .model generatorModel.train,
           .model mpdModel.train, .model msdModel.train,
           .optim scheduledOptim, .int epoch, .int step]
    | some ckpt =>
      match ckptGetSd ckpt "optimizer" with
      | .error e => .error e
      | .ok osd =>
        .ok [.model varianceModel.train, .model embedderModel.train,
             .model decoderModel.train, .model generatorModel.train,
             .model mpdModel.train, .model msdModel.train,
             .optim (scheduledOptim.load_state_dict osd), .int epoch, .int step]
  else
    let varianceModel := varianceModel.eval
    let embedderModel := embedderModel.eval
    let decoderModel := decoderModel.eval
    let generatorModel := generatorModel.eval.remove_weight_norm
    let varianceModel := varianceModel.set_requires_grad_attr false
    let embedderModel := embedderModel.set_requires_grad_attr false
    let decoderModel := decoderModel.set_requires_grad_attr false
    let _generatorModel := generatorModel.set_requires_grad_attr false
    .ok [.model varianceModel, .model embedderModel, .model decoderModel,
         PyVal.none, PyVal.none, PyVal.none, .int epoch, .int step]

/-- Embeds utils/model.py lines 79-99: the generator input width is the
decoder hidden size when `mode == "jets"`, otherwise the mel channel
count; the vocoder package is selected by `vocoder_type`, with
`fregan` and `hifigan` the only supported names and any other name
raising `Unsupported vocoder: <name>` before any vocoder is
constructed. -/
def buildVocoder (config : Config) : Except String (SubModel × SubModel × SubModel) :=
  let hiddenSize := if config.mode = "jets" then config.decoderHidden
                    else config.nMelChannels
  if config.vocoderType = "fregan" then
    .ok (newModule "fregan.Generator" [(hiddenSize : ℚ)] true,
         newModule "fregan.ResWiseMultiPeriodDiscriminator" [] false,
         newModule "fregan.ResWiseMultiScaleDiscriminator" [] false)
  else if config.vocoderType = "hifigan" then
    .ok (newModule "hifigan.Generator" [(hiddenSize : ℚ)] true,
         newModule "hifigan.MultiPeriodDiscriminator" [] false,
         newModule "hifigan.MultiScaleDiscriminator" [] false)
  else .error ("Unsupported vocoder: " ++ config.vocoderType)

/-- Embeds `get_model(checkpoint_path, config, device, speaker_num,
train)` (utils/model.py lines 63-137): reads the first two entries of
the `pitch` statistics, constructs the variance predictor, feature
embedder and mel decoder, selects the vocoder package by
`config.vocoderType` (raising `Unsupported vocoder: <name>` for any
other name, before any vocoder is constructed and before any checkpoint
is read), computes the generator input width from `config.mode`, then
optionally restores all six state dictionaries plus epoch and step from
the checkpoint, and finishes in train or eval mode. -/
def getModel (checkpointPath : Option Ckpt) (config : Config) (speakerNum : Nat)
    (train : Bool) : Except String (List PyVal) :=
  match config.statsPitch with
  | [] => .error "stats.json: pitch has fewer than two entries"
  | [_] => .error "stats.json: pitch has fewer than two entries"
  | pitchMin :: pitchMax :: _ =>
    let varianceModel := newModule "PitchAndDurationPredictor" [(speakerNum : ℚ)] false
    let embedderModel :=
      newModule "FeatureEmbedder" [(speakerNum : ℚ), pitchMin, pitchMax] false
    let decoderModel := newModule "MelSpectrogramDecoder" [(config.nMelChannels : ℚ)] false
    match buildVocoder config with
    | .error e => .error e
    | .ok (generatorModel, mpdModel, msdModel) =>
      match checkpointPath with
      | Option.none =>
        finishGetModel config train varianceModel embedderModel decoderModel
          generatorModel mpdModel msdModel (-1) 0 Option.none
      | some ckpt =>
        match loadRestore ckpt with
        | .error e => .error e
        | .ok r =>
          finishGetModel config train (varianceModel.load_state_dict r.vsd)
            (embedderModel.load_state_dict r.esd)
            (decoderModel.load_state_dict r.dsd)
            (generatorModel.load_state_dict r.gsd)
            (mpdModel.load_state_dict r.mpdSd)
            (msdModel.load_state_dict r.msdSd) r.epoch r.step (some ckpt)

/-! ## The training entry point around the factory (train.py) -/

/-- Embeds the Python tuple unpacking `a, b, c = e` of train.py line
223: succeeds exactly on a three-element tuple, otherwise raises
`ValueError`. -/
def pyUnpack3 (l : List PyVal) : Except String (PyVal × PyVal × PyVal) :=
  match l with
  | [a, b, c] => .ok (a, b, c)
  | _ => .error (if 3 < l.length then "too many values to unpack (expected 3)"
                 else "not enough values to unpack")

/-- Embeds train.py line 223: `fs2_model, optimizer, epoch =
get_model(restore_step, config, device, speaker_num, train=True)`. -/
def mainPrepareModel (checkpointPath : Option Ckpt) (config : Config)
    (speakerNum : Nat) : Except String (PyVal × PyVal × PyVal) :=
  match getModel checkpointPath config speakerNum true with
  | .error e => .error e
  | .ok vals => pyUnpack3 vals

/-- Embeds the checkpoint dictionary written by train.py lines 403-414
when `step % save_step == 0`: keys `model` (the combined model state
dictionary), `optimizer` (the wrapped optimizer's state dictionary) and
`epoch` (the current epoch minus one). -/
def saveCheckpoint (modelSd optimSd : List (String × Int)) (epoch : Int) : Ckpt :=
  [("model", .sd modelSd), ("optimizer", .sd optimSd), ("epoch", .int (epoch - 1))]

/-- Embeds the checkpoint file name `"{:08d}.pth.tar".format(step)` of
train.py line 412: the step number zero-padded to eight digits. -/
def ckptFileName (step : Nat) : String :=
  let s := toString step
  String.mk (List.replicate (8 - s.length) '0') ++ s ++ ".pth.tar"

/-! ## Theorems -/

/-- Helper: the validation accumulator is the sum of per-batch
contributions. -/
theorem evalAccumulate_eq_sum (l : List (ℚ × Nat)) :
    evalAccumulate l = (l.map fun p => p.1 * (p.2 : ℚ)).sum := by
  have h : ∀ (l : List (ℚ × Nat)) (c : ℚ),
      l.foldl (fun acc p => acc + p.1 * (p.2 : ℚ)) c
        = c + (l.map fun p => p.1 * (p.2 : ℚ)).sum := by
    intro l
    induction l with
    | nil => intro c; simp
    | cons a t ih => intro c; simp [List.foldl_cons, ih, add_assoc]
  simpa [evalAccumulate] using h l 0

/-- Helper: a batch-mean loss weighted by the batch size recovers the
batch's summed per-utterance loss (also for an empty batch, where both
sides are zero). -/
theorem batchMean_mul_len (b : List ℚ) :
    batchMeanLoss b * (b.length : ℚ) = b.sum := by
  rcases b with _ | ⟨x, t⟩
  · simp [batchMeanLoss]
  · have h : (((x :: t).length : ℚ)) ≠ 0 := by
      have h0 : (0 : ℚ) < (((x :: t).length : Nat) : ℚ) := by
        exact_mod_cast Nat.succ_pos t.length
      exact ne_of_gt h0
    simpa [batchMeanLoss] using div_mul_cancel₀ (x :: t).sum h

/-- C3: in both the training loop (train.py 318-331) and the validation
routine (train.py 109-122), the reported loss dictionary carries
`alignment_loss = base_alignment_loss + 2*b` and `total_loss =
base_total_loss + 2*b` for the computed binarization loss `b`, every
other component unchanged, and the two code paths apply the identical
transformation. -/
theorem binarization_scaling_consistent (base : LossValues) (b : ℚ) :
    trainStepLossDict base b =
      { base with totalLoss := base.totalLoss + 2 * b,
                  alignLoss := base.alignLoss + 2 * b } ∧
    evaluateLossDict base b = trainStepLossDict base b := by
  constructor
  · simp [trainStepLossDict, LossValues.mk.injEq, mul_comm]
  · rfl

/-- C6: for a validation split partitioned into batches with
per-utterance losses, `evaluate`'s reported mean (accumulating each
batch-mean loss weighted by `len(batch[0])` and dividing by
`len(dataset)` at the end) equals the batch-size-weighted mean
`sum(l_i * n_i) / N`, and equals the simple mean of the per-utterance
losses over the whole split. -/
theorem evaluate_weighted_mean_eq_simple_mean (batches : List (List ℚ)) :
    evalReportedMean (batches.map fun b => (batchMeanLoss b, b.length))
        ((batches.map List.length).sum)
      = (batches.map fun b => batchMeanLoss b * (b.length : ℚ)).sum
          / (((batches.map List.length).sum : Nat) : ℚ) ∧
    evalReportedMean (batches.map fun b => (batchMeanLoss b, b.length))
        ((batches.map List.length).sum)
      = (batches.map List.sum).sum / (((batches.map List.length).sum : Nat) : ℚ) := by
  constructor
  · unfold evalReportedMean
    rw [evalAccumulate_eq_sum]
    simp [List.map_map, Function.comp_def]
  · unfold evalReportedMean
    rw [evalAccumulate_eq_sum]
    simp [List.map_map, Function.comp_def, batchMean_mul_len]

/-- C7: the training-run construction aborts with an assertion failure
exactly when the configured batch size times the group size (4 on a
single device, 1 on multiple devices) is not strictly smaller than the
number of records in the training split, and passes otherwise. -/
theorem main_dataset_size_guard (batchSize numGpus datasetLen : Nat) :
    (mainSizeAssert batchSize numGpus datasetLen = .error "AssertionError"
        ↔ ¬ batchSize * mainGroupSize numGpus < datasetLen) ∧
    (mainSizeAssert batchSize numGpus datasetLen = .ok ()
        ↔ batchSize * mainGroupSize numGpus < datasetLen) := by
  unfold mainSizeAssert
  split <;> simp_all

/-- Holds when an embedded Python computation returns normally instead
of raising. -/
def raisesNoError {α : Type} (e : Except String α) : Prop :=
  match e with
  | .ok _ => True
  | .error _ => False

/-- C9: with valid pitch statistics, `get_model` raises the fatal error
`Unsupported vocoder: <name>` for every configured vocoder name other
than `fregan` and `hifigan` — for any checkpoint argument and any train
flag, and before any vocoder is constructed or checkpoint read — while
for the two supported names the call raises no error. -/
theorem unsupported_vocoder_fatal (cfg : Config) (spk : Nat) (p1 p2 : ℚ)
    (rest : List ℚ) (hstats : cfg.statsPitch = p1 :: p2 :: rest) :
    ((cfg.vocoderType ≠ "fregan" ∧ cfg.vocoderType ≠ "hifigan") →
      ∀ (cp : Option Ckpt) (t : Bool),
        getModel cp cfg spk t = .error ("Unsupported vocoder: " ++ cfg.vocoderType)) ∧
    ((cfg.vocoderType = "fregan" ∨ cfg.vocoderType = "hifigan") →
      ∀ t : Bool, raisesNoError (getModel Option.none cfg spk t)) := by
  constructor
  · rintro ⟨h1, h2⟩ cp t
    simp [getModel, buildVocoder, hstats, h1, h2]
  · rintro (hv | hv) t <;> cases t <;>
      simp [getModel, buildVocoder, hstats, hv, finishGetModel, raisesNoError]

/-- A concrete configuration selecting the fregan vocoder. -/
def cfgFregan : Config := ⟨[0, 1], 80, 256, "fregan", "jets", 0⟩

/-- A concrete configuration selecting an unsupported vocoder name. -/
def cfgMelgan : Config := ⟨[0, 1], 80, 256, "melgan", "jets", 0⟩

/-- Witness for C9 at concrete configurations. -/
theorem unsupported_vocoder_fatal_witness :
    getModel Option.none cfgMelgan 10 true
        = .error ("Unsupported vocoder: " ++ cfgMelgan.vocoderType) ∧
    raisesNoError (getModel Option.none cfgFregan 10 false) := by
  constructor
  · exact (unsupported_vocoder_fatal cfgMelgan 10 0 1 [] rfl).1
      ⟨by decide, by decide⟩ Option.none true
  · exact (unsupported_vocoder_fatal cfgFregan 10 0 1 [] rfl).2 (Or.inl rfl) false

/-- C5: with valid pitch statistics and a supported vocoder, `get_model`
with `train=True` returns the nine-element tuple (variance predictor,
embedder, decoder, generator, the two discriminators, scheduled
optimizer, epoch, step) in that order, with `.train()` applied to all
six sub-models; the scheduled optimizer is built over exactly those six
sub-models with the restored epoch, and its state is loaded from the
checkpoint's `optimizer` entry exactly when a checkpoint path was
given. -/
theorem get_model_train_mode (cfg : Config) (spk : Nat) (p1 p2 : ℚ)
    (rest : List ℚ) (g mpd msd : SubModel)
    (hstats : cfg.statsPitch = p1 :: p2 :: rest)
    (hvoc : buildVocoder cfg = .ok (g, mpd, msd)) :
    (getModel Option.none cfg spk true =
      .ok [.model (newModule "PitchAndDurationPredictor" [(spk : ℚ)] false).train,
           .model (newModule "FeatureEmbedder" [(spk : ℚ), p1, p2] false).train,
           .model (newModule "MelSpectrogramDecoder" [(cfg.nMelChannels : ℚ)] false).train,
           .model g.train, .model mpd.train, .model msd.train,
           .optim ⟨["PitchAndDurationPredictor", "FeatureEmbedder",
                    "MelSpectrogramDecoder", g.arch, mpd.arch, msd.arch],
                   cfg.trainCfg, -1, Option.none⟩,
           .int (-1), .int 0]) ∧
    (∀ (ckpt : Ckpt) (r : Restored) (osd : List (String × Int)),
      loadRestore ckpt = .ok r → ckptGetSd ckpt "optimizer" = .ok osd →
      getModel (some ckpt) cfg spk true =
        .ok [.model ((newModule "PitchAndDurationPredictor"
                [(spk : ℚ)] false).load_state_dict r.vsd).train,
             .model ((newModule "FeatureEmbedder"
                [(spk : ℚ), p1, p2] false).load_state_dict r.esd).train,
             .model ((newModule "MelSpectrogramDecoder"
                [(cfg.nMelChannels : ℚ)] false).load_state_dict r.dsd).train,
             .model (g.load_state_dict r.gsd).train,
             .model (mpd.load_state_dict r.mpdSd).train,
             .model (msd.load_state_dict r.msdSd).train,
             .optim ⟨["PitchAndDurationPredictor", "FeatureEmbedder",
                      "MelSpectrogramDecoder", g.arch, mpd.arch, msd.arch],
                     cfg.trainCfg, r.epoch, some osd⟩,
             .int r.epoch, .int r.step]) ∧
    (∀ m : SubModel, m.train.training = true) := by
  refine ⟨?_, ?_, ?_⟩
  · simp [getModel, hstats, hvoc, finishGetModel, ScheduledOptim.new, newModule]
  · intro ckpt r osd h1 h2
    simp [getModel, hstats, hvoc, h1, h2, finishGetModel, ScheduledOptim.new,
      ScheduledOptim.load_state_dict, SubModel.load_state_dict, newModule]
  · intro m
    rfl

/-- A concrete well-formed joint checkpoint with all eight restore keys
and the optimizer state. -/
def ckptFull : Ckpt :=
  [("variance_model", .sd [("w", 1)]),
   ("embedder_model", .sd [("w", 2)]),
   ("decoder_model", .sd [("w", 3)]),
   ("generator_model", .sd [("w", 4)]),
   ("mpd_model", .sd [("w", 5)]),
   ("msd_model", .sd [("w", 6)]),
   ("epoch", .int 7),
   ("step", .int 1000),
   ("optimizer", .sd [("lr", 9)])]

/-- The restore result read from `ckptFull`. -/
def restoredEx : Restored :=
  ⟨[("w", 1)], [("w", 2)], [("w", 3)], [("w", 4)], [("w", 5)], [("w", 6)], 7, 1000⟩

/-- Witness for C5 at a concrete configuration and checkpoint. -/
theorem get_model_train_mode_witness :
    getModel (some ckptFull) cfgFregan 10 true =
      .ok [.model ((newModule "PitchAndDurationPredictor"
              [(10 : ℚ)] false).load_state_dict restoredEx.vsd).train,
           .model ((newModule "FeatureEmbedder"
              [(10 : ℚ), 0, 1] false).load_state_dict restoredEx.esd).train,
           .model ((newModule "MelSpectrogramDecoder"
              [(cfgFregan.nMelChannels : ℚ)] false).load_state_dict restoredEx.dsd).train,
           .model ((newModule "fregan.Generator"
              [((256 : Nat) : ℚ)] true).load_state_dict restoredEx.gsd).train,
           .model ((newModule "fregan.ResWiseMultiPeriodDiscriminator"
              [] false).load_state_dict restoredEx.mpdSd).train,
           .model ((newModule "fregan.ResWiseMultiScaleDiscriminator"
              [] false).load_state_dict restoredEx.msdSd).train,
           .optim ⟨["PitchAndDurationPredictor", "FeatureEmbedder",
                    "MelSpectrogramDecoder",
                    (newModule "fregan.Generator" [((256 : Nat) : ℚ)] true).arch,
                    (newModule "fregan.ResWiseMultiPeriodDiscriminator" [] false).arch,
                    (newModule "fregan.ResWiseMultiScaleDiscriminator" [] false).arch],
                   cfgFregan.trainCfg, restoredEx.epoch, some [("lr", 9)]⟩,
           .int restoredEx.epoch, .int restoredEx.step] :=
  (get_model_train_mode cfgFregan 10 0 1 []
    (newModule "fregan.Generator" [((256 : Nat) : ℚ)] true)
    (newModule "fregan.ResWiseMultiPeriodDiscriminator" [] false)
    (newModule "fregan.ResWiseMultiScaleDiscriminator" [] false)
    rfl rfl).2.1 ckptFull restoredEx [("lr", 9)] rfl rfl

/-- C4: with valid pitch statistics and a supported vocoder, `get_model`
with `train=False` returns the eight-element tuple (variance predictor,
embedder, decoder, None, None, None, epoch, step): the vocoder generator
is NOT among the returned values, and while the three returned
sub-models are in evaluation mode with a `requires_grad_` attribute set
to False, the actual autograd tracking of their parameters is unchanged
(still enabled for freshly constructed modules), because the assignment
shadows the method instead of calling it. -/
theorem get_model_eval_mode (cfg : Config) (spk : Nat) (p1 p2 : ℚ)
    (rest : List ℚ) (g mpd msd : SubModel)
    (hstats : cfg.statsPitch = p1 :: p2 :: rest)
    (hvoc : buildVocoder cfg = .ok (g, mpd, msd)) :
    getModel Option.none cfg spk false =
      .ok [.model ((newModule "PitchAndDurationPredictor"
              [(spk : ℚ)] false).eval.set_requires_grad_attr false),
           .model ((newModule "FeatureEmbedder"
              [(spk : ℚ), p1, p2] false).eval.set_requires_grad_attr false),
           .model ((newModule "MelSpectrogramDecoder"
              [(cfg.nMelChannels : ℚ)] false).eval.set_requires_grad_attr false),
           PyVal.none, PyVal.none, PyVal.none, .int (-1), .int 0] ∧
    (∀ m : SubModel, (m.eval.set_requires_grad_attr false).training = false) ∧
    (∀ m : SubModel,
      (m.eval.set_requires_grad_attr false).paramsRequireGrad = m.paramsRequireGrad) ∧
    (∀ m : SubModel,
      (m.eval.set_requires_grad_attr false).requiresGradAttr = some false) ∧
    (∀ (a : String) (args : List ℚ) (wn : Bool),
      (newModule a args wn).paramsRequireGrad = true) := by
  refine ⟨?_, fun m => rfl, fun m => rfl, fun m => rfl, fun a args wn => rfl⟩
  simp [getModel, hstats, hvoc, finishGetModel]

/-- Witness for C4 at a concrete configuration. -/
theorem get_model_eval_mode_witness :
    getModel Option.none cfgFregan 10 false =
      .ok [.model ((newModule "PitchAndDurationPredictor"
              [(10 : ℚ)] false).eval.set_requires_grad_attr false),
           .model ((newModule "FeatureEmbedder"
              [(10 : ℚ), 0, 1] false).eval.set_requires_grad_attr false),
           .model ((newModule "MelSpectrogramDecoder"
              [(cfgFregan.nMelChannels : ℚ)] false).eval.set_requires_grad_attr false),
           PyVal.none, PyVal.none, PyVal.none, .int (-1), .int 0] :=
  (get_model_eval_mode cfgFregan 10 0 1 []
    (newModule "fregan.Generator" [((256 : Nat) : ℚ)] true)
    (newModule "fregan.ResWiseMultiPeriodDiscriminator" [] false)
    (newModule "fregan.ResWiseMultiScaleDiscriminator" [] false)
    rfl rfl).1

/-- Helper: every successful train-mode return of `finishGetModel` is a
nine-element tuple. -/
theorem finishGetModel_train_length (cfg : Config)
    (v e d g mpd msd : SubModel) (ep st : Int) (lc : Option Ckpt)
    (vals : List PyVal)
    (h : finishGetModel cfg true v e d g mpd msd ep st lc = .ok vals) :
    vals.length = 9 := by
  unfold finishGetModel at h
  repeat' split at h
  all_goals first
    | exact Except.noConfusion h
    | (injection h with h; subst h; rfl)
    | simp_all

/-- Helper: every successful train-mode return of `get_model` is a
nine-element tuple. -/
theorem getModel_train_length (cp : Option Ckpt) (cfg : Config) (spk : Nat)
    (vals : List PyVal) (h : getModel cp cfg spk true = .ok vals) :
    vals.length = 9 := by
  simp only [getModel] at h
  repeat' split at h
  all_goals first
    | simp_all
    | exact finishGetModel_train_length _ _ _ _ _ _ _ _ _ _ _ h

/-- C1: whenever the factory call of train.py line 223 returns at all,
it returns a nine-element tuple, so the unpacking into the three
bindings `fs2_model, optimizer, epoch` necessarily raises `ValueError:
too many values to unpack (expected 3)`; model construction in `main`
never completes. -/
theorem main_model_unpack_fails (cp : Option Ckpt) (cfg : Config) (spk : Nat)
    (vals : List PyVal) (h : getModel cp cfg spk true = .ok vals) :
    pyUnpack3 vals = .error "too many values to unpack (expected 3)" ∧
    mainPrepareModel cp cfg spk
      = .error "too many values to unpack (expected 3)" := by
  have h9 := getModel_train_length cp cfg spk vals h
  have hp : pyUnpack3 vals = .error "too many values to unpack (expected 3)" := by
    rcases vals with _ | ⟨a, _ | ⟨b, _ | ⟨c, _ | ⟨d, t⟩⟩⟩⟩ <;> simp_all [pyUnpack3]
  refine ⟨hp, ?_⟩
  simp only [mainPrepareModel, h]
  exact hp

/-- Witness for C1 at a concrete configuration. -/
theorem main_model_unpack_fails_witness :
    mainPrepareModel Option.none cfgFregan 10
      = .error "too many values to unpack (expected 3)" :=
  (main_model_unpack_fails Option.none cfgFregan 10 _ rfl).2

/-- C2: the checkpoint dictionary written by the save path of train.py
(keys `model`, `optimizer`, `epoch`) is not the layout read by the
restore path of `get_model` (keys `variance_model`, `embedder_model`,
`decoder_model`, `generator_model`, `mpd_model`, `msd_model`, `epoch`,
`step`): restoring from a just-saved checkpoint raises `KeyError:
variance_model` at the very first read, for every saved state and both
train flags, so the save/restore round-trip never yields restored
parameters. -/
theorem checkpoint_roundtrip_keyerror (cfg : Config) (spk : Nat) (p1 p2 : ℚ)
    (rest : List ℚ) (g mpd msd : SubModel)
    (modelSd optimSd : List (String × Int)) (ep : Int) (t : Bool)
    (hstats : cfg.statsPitch = p1 :: p2 :: rest)
    (hvoc : buildVocoder cfg = .ok (g, mpd, msd)) :
    loadRestore (saveCheckpoint modelSd optimSd ep)
      = .error "KeyError: variance_model" ∧
    getModel (some (saveCheckpoint modelSd optimSd ep)) cfg spk t
      = .error "KeyError: variance_model" := by
  have hl : loadRestore (saveCheckpoint modelSd optimSd ep)
      = .error "KeyError: variance_model" := rfl
  exact ⟨hl, by simp [getModel, hstats, hvoc, hl]⟩

/-- Witness for C2 at a concrete configuration and saved state. -/
theorem checkpoint_roundtrip_keyerror_witness :
    getModel (some (saveCheckpoint [("w", 1)] [("lr", 2)] 5)) cfgFregan 10 true
      = .error "KeyError: variance_model" :=
  (checkpoint_roundtrip_keyerror cfgFregan 10 0 1 []
    (newModule "fregan.Generator" [((256 : Nat) : ℚ)] true)
    (newModule "fregan.ResWiseMultiPeriodDiscriminator" [] false)
    (newModule "fregan.ResWiseMultiScaleDiscriminator" [] false)
    [("w", 1)] [("lr", 2)] 5 true rfl rfl).2

/-- Helper: the starting value bounds a max-fold from below. -/
theorem le_foldl_max (l : List ℚ) (a : ℚ) : a ≤ l.foldl max a := by
  induction l generalizing a with
  | nil => exact le_refl a
  | cons b t ih => exact le_trans (le_max_left a b) (ih (max a b))

/-- Helper: every list element bounds a max-fold from below. -/
theorem mem_le_foldl_max (l : List ℚ) (a x : ℚ) (hx : x ∈ l) :
    x ≤ l.foldl max a := by
  induction l generalizing a with
  | nil => cases hx
  | cons b t ih =>
    rcases List.mem_cons.mp hx with h | h
    · rw [h]
      exact le_trans (le_max_right a b) (le_foldl_max t (max a b))
    · exact ih (max a b) h

/-- Helper: a max-fold returns its starting value or a list element. -/
theorem foldl_max_choice (l : List ℚ) (a : ℚ) :
    l.foldl max a = a ∨ l.foldl max a ∈ l := by
  induction l generalizing a with
  | nil => exact Or.inl rfl
  | cons b t ih =>
    rcases ih (max a b) with h | h
    · rcases max_choice a b with hm | hm
      · exact Or.inl (by rw [List.foldl_cons, h, hm])
      · exact Or.inr (by rw [List.foldl_cons, h, hm]; exact List.mem_cons_self b t)
    · exact Or.inr (List.mem_cons_of_mem b h)

/-- Helper: a max-fold commutes with division by a nonnegative scalar. -/
theorem foldl_max_div (l : List ℚ) (a c : ℚ) (hc : 0 ≤ c) :
    (l.map fun x => x / c).foldl max (a / c) = l.foldl max a / c := by
  induction l generalizing a with
  | nil => rfl
  | cons b t ih =>
    rw [List.map_cons, List.foldl_cons, List.foldl_cons,
      max_div_div_right hc a b, ih (max a b)]

/-- C8: on a nonempty audio array, when the peak absolute amplitude `p`
returned by `max(abs(audio))` is nonzero, the emitted clip is the input
divided elementwise by `p` and its own peak absolute sample equals 1;
on an all-zero audio array, `log` raises no exception: the division is
total and emits a clip of non-finite samples. -/
theorem log_audio_peak_normalization (wav : List ℚ) (hw : wav ≠ []) :
    (∀ p, pyMax (wav.map npAbs) = .ok p → p ≠ 0 →
      logAudioClip wav = .ok (wav.map fun x => some (x / p)) ∧
      pyMax ((wav.map fun x => x / p).map npAbs) = .ok 1) ∧
    ((∀ x ∈ wav, x = 0) →
      logAudioClip wav = .ok (wav.map fun _ => Option.none)) := by
  rcases wav with _ | ⟨a, t⟩
  · exact absurd rfl hw
  constructor
  · intro p hp hp0
    have hpv : (t.map npAbs).foldl max (npAbs a) = p := by
      simpa [pyMax] using hp
    have hnn : 0 ≤ p := by
      rw [← hpv]
      exact le_trans (abs_nonneg a) (le_foldl_max (t.map npAbs) (npAbs a))
    have hpos : 0 < p := lt_of_le_of_ne hnn (Ne.symm hp0)
    constructor
    · simp only [logAudioClip, hp]
      simp [npDivScalar, hp0]
    · have hmap : (((a :: t).map fun x => x / p).map npAbs)
          = ((a :: t).map npAbs).map (fun x => x / p) := by
        simp [npAbs, List.map_map, Function.comp_def, abs_div, abs_of_pos hpos]
      rw [hmap]
      simp only [List.map_cons, pyMax]
      rw [foldl_max_div (t.map npAbs) (npAbs a) p hnn, hpv, div_self hp0]
  · intro hz
    have ha : a = 0 := hz a (by simp)
    have hta : ∀ x ∈ t, x = 0 := fun x hx => hz x (by simp [hx])
    have hfold : (t.map npAbs).foldl max (npAbs a) = 0 := by
      rcases foldl_max_choice (t.map npAbs) (npAbs a) with h | h
      · rw [h]
        simp [npAbs, ha]
      · rcases List.mem_map.mp h with ⟨x, hx, hxe⟩
        rw [← hxe]
        simp [npAbs, hta x hx]
    simp [logAudioClip, pyMax, hfold, npDivScalar]

/-- Witness for C8 at a concrete two-sample clip with peak 2. -/
theorem log_audio_peak_normalization_witness :
    logAudioClip [(1 : ℚ), -2] = .ok ([(1 : ℚ), -2].map fun x => some (x / 2)) ∧
    pyMax (([(1 : ℚ), -2].map fun x => x / 2).map npAbs) = .ok 1 :=
  (log_audio_peak_normalization [(1 : ℚ), -2] (by decide)).1 2 rfl (by decide)

/-- Helper: one deletion iteration yields a sublist of the dictionary. -/
theorem logDropNoneStep_sublist (d : PyLossDict) (k : String) :
    List.Sublist (logDropNoneStep d k) d := by
  unfold logDropNoneStep
  split
  · exact List.filter_sublist d
  · exact List.Sublist.refl d

/-- Helper: the whole deletion loop yields a sublist of the dictionary. -/
theorem foldl_dropNone_sublist (ks : List String) (d : PyLossDict) :
    List.Sublist (ks.foldl logDropNoneStep d) d := by
  induction ks generalizing d with
  | nil => exact List.Sublist.refl d
  | cons k t ih =>
    exact List.Sublist.trans (ih (logDropNoneStep d k)) (logDropNoneStep_sublist d k)

/-- Helper: on a unique-key dictionary, indexing an entry that is a
member returns its value. -/
theorem pyDictLookup_of_mem_nodup (d : PyLossDict) (k : String) (v : Option ℚ)
    (hnd : (d.map Prod.fst).Nodup) (hm : (k, v) ∈ d) :
    pyDictLookup d k = some v := by
  induction d with
  | nil => cases hm
  | cons kv t ih =>
    obtain ⟨k1, v1⟩ := kv
    simp only [List.map_cons, List.nodup_cons] at hnd
    rcases List.mem_cons.mp hm with h | h
    · cases h
      simp [pyDictLookup]
    · have hk : k ∈ t.map Prod.fst := List.mem_map_of_mem Prod.fst h
      have hne : (k1 == k) = false := by
        apply beq_eq_false_iff_ne.mpr
        intro he
        exact hnd.1 (he ▸ hk)
      have ht := ih hnd.2 h
      simpa [pyDictLookup, List.find?_cons, hne] using ht

/-- Helper: indexing an absent key returns nothing. -/
theorem pyDictLookup_eq_none (d : PyLossDict) (k : String)
    (h : k ∉ d.map Prod.fst) : pyDictLookup d k = Option.none := by
  have hf : d.find? (fun kv => kv.1 == k) = Option.none :=
    List.find?_eq_none.mpr
      (fun kv hkv he => h (eq_of_beq he ▸ List.mem_map_of_mem Prod.fst hkv))
  simp [pyDictLookup, hf]

/-- Helper: an entry carrying a non-None value survives the whole
deletion loop. -/
theorem mem_foldl_dropNone (ks : List String) (d : PyLossDict) (k : String)
    (q : ℚ) (hnd : (d.map Prod.fst).Nodup) (hm : (k, some q) ∈ d) :
    (k, some q) ∈ ks.foldl logDropNoneStep d := by
  induction ks generalizing d with
  | nil => exact hm
  | cons k2 t ih =>
    rw [List.foldl_cons]
    apply ih
    · exact hnd.sublist ((logDropNoneStep_sublist d k2).map Prod.fst)
    · unfold logDropNoneStep
      split
      · rename_i hcond
        by_cases hk : k2 = k
        · subst hk
          have hl := pyDictLookup_of_mem_nodup d k2 (some q) hnd hm
          rw [hl] at hcond
          simp at hcond
        · apply List.mem_filter.mpr
          refine ⟨hm, ?_⟩
          simp
          exact fun he => hk he.symm
      · exact hm

/-- Helper: the iteration that visits a None-valued key removes it, and
no later iteration brings it back. -/
theorem key_dropped_foldl (ks1 ks2 : List String) (d : PyLossDict) (k : String)
    (hnd : (d.map Prod.fst).Nodup) (hm : (k, Option.none) ∈ d) :
    k ∉ ((ks1 ++ k :: ks2).foldl logDropNoneStep d).map Prod.fst := by
  rw [List.foldl_append, List.foldl_cons]
  have hsub : List.Sublist (ks1.foldl logDropNoneStep d) d :=
    foldl_dropNone_sublist ks1 d
  have hstep : k ∉ (logDropNoneStep (ks1.foldl logDropNoneStep d) k).map Prod.fst := by
    set d1 := ks1.foldl logDropNoneStep d with hd1
    by_cases hk : k ∈ d1.map Prod.fst
    · rcases List.mem_map.mp hk with ⟨kv, hkv, hfst⟩
      have hkvd : kv ∈ d := hsub.subset hkv
      have h1 : pyDictLookup d k = some kv.2 := by
        apply pyDictLookup_of_mem_nodup d k kv.2 hnd
        rw [← hfst]
        simpa using hkvd
      have h2 : pyDictLookup d k = some Option.none :=
        pyDictLookup_of_mem_nodup d k Option.none hnd hm
      have hv : kv.2 = Option.none := by
        rw [h1] at h2
        exact Option.some.inj h2
      have hmem1 : (k, Option.none) ∈ d1 := by
        rw [← hv, ← hfst]
        simpa using hkv
      have hnd1 : (d1.map Prod.fst).Nodup := hnd.sublist (hsub.map Prod.fst)
      have hlook : pyDictLookup d1 k = some Option.none :=
        pyDictLookup_of_mem_nodup d1 k Option.none hnd1 hmem1
      unfold logDropNoneStep
      rw [if_pos hlook]
      intro hmem
      rcases List.mem_map.mp hmem with ⟨kv2, hkv2, hfst2⟩
      have hcond := (List.mem_filter.mp hkv2).2
      simp only [ne_eq, decide_not, Bool.not_eq_true', decide_eq_false_iff_not] at hcond
      exact hcond hfst2
    · intro hmem
      exact hk (((logDropNoneStep_sublist d1 k).map Prod.fst).subset hmem)
  intro hmem
  exact hstep
    (((foldl_dropNone_sublist ks2 _).map Prod.fst).subset hmem)

/-- C10: `log` mutates the caller's loss dictionary in place — modelled
by explicit state passing — so that after the call every entry whose
value was None is gone from the dictionary, while every entry carrying a
value is still present with that value. -/
theorem log_deletes_none_entries (d : PyLossDict)
    (hnd : (d.map Prod.fst).Nodup) :
    (∀ k, (k, Option.none) ∈ d →
      pyDictLookup (logLossDictUpdate d) k = Option.none) ∧
    (∀ k q, (k, some q) ∈ d →
      pyDictLookup (logLossDictUpdate d) k = some (some q)) := by
  constructor
  · intro k hm
    have hk : k ∈ d.map Prod.fst := List.mem_map_of_mem Prod.fst hm
    rcases List.append_of_mem hk with ⟨s, t2, hse⟩
    apply pyDictLookup_eq_none
    unfold logLossDictUpdate
    rw [hse]
    exact key_dropped_foldl s t2 d k hnd hm
  · intro k q hm
    have hmem := mem_foldl_dropNone (d.map Prod.fst) d k q hnd hm
    have hnd2 : ((logLossDictUpdate d).map Prod.fst).Nodup :=
      hnd.sublist ((foldl_dropNone_sublist (d.map Prod.fst) d).map Prod.fst)
    exact pyDictLookup_of_mem_nodup _ k (some q) hnd2 hmem

/-- Witness for C10 at a concrete dictionary holding one None entry. -/
theorem log_deletes_none_entries_witness :
    pyDictLookup
        (logLossDictUpdate [("total_loss", some 1), ("generator_loss", Option.none)])
        "generator_loss" = Option.none ∧
    pyDictLookup
        (logLossDictUpdate [("total_loss", some 1), ("generator_loss", Option.none)])
        "total_loss" = some (some 1) :=
  ⟨(log_deletes_none_entries
      [("total_loss", some 1), ("generator_loss", Option.none)] (by decide)).1
      "generator_loss" (by decide),
   (log_deletes_none_entries
      [("total_loss", some 1), ("generator_loss", Option.none)] (by decide)).2
      "total_loss" 1 (by decide)⟩
